import Mathlib

/-!
Verification of `protein_structure_server.py` (protein_structure_MCP_server).

The Python module is shallowly embedded: JSON response bodies are the
inductive `Json`; Python's dynamic attribute/index errors are modelled by
`Option` (a `none` result of an embedded function means the Python code
raises at that point); network requests are parameters of the embedded
operations (`Option Json` / `NetResult`, where absence stands for a caught
transport, HTTP-status, or JSON-parse failure inside the client's
`try`/`except`).  String constants reproduce the file's literal characters,
including its mojibake emoji sequences.
-/

/-- A parsed JSON value, as produced by `response.json()`.  Python `dict`s
are association lists (keys are assumed unique, as JSON object keys are). -/
inductive Json where
  | null
  | bool (b : Bool)
  | num (n : Int)
  | str (s : String)
  | arr (elts : List Json)
  | obj (fields : List (String × Json))

/-- Python truthiness (`if x:`) of a JSON value. -/
def Json.truthy : Json → Bool
  | .null => false
  | .bool b => b
  | .num n => n != 0
  | .str s => !(s == "")
  | .arr xs => !xs.isEmpty
  | .obj fs => !fs.isEmpty

/-- Python `x == lit` for a string literal `lit`: values of a non-string
type compare unequal to a string without raising. -/
def Json.eqStr : Json → String → Bool
  | .str s, t => s = t
  | _, _ => false

mutual

/-- Python `repr` of a JSON value (used by `str` on containers). -/
def Json.pyRepr : Json → String
  | .null => "None"
  | .bool true => "True"
  | .bool false => "False"
  | .num n => n.repr
  | .str s => "\x27" ++ s ++ "\x27"
  | .arr xs => "[" ++ String.intercalate ", " (Json.pyReprList xs) ++ "]"
  | .obj fs => "\x7b" ++ String.intercalate ", " (Json.pyReprFields fs) ++ "\x7d"

def Json.pyReprList : List Json → List String
  | [] => []
  | x :: xs => x.pyRepr :: Json.pyReprList xs

def Json.pyReprFields : List (String × Json) → List String
  | [] => []
  | kv :: fs => ("\x27" ++ kv.1 ++ "\x27: " ++ kv.2.pyRepr) :: Json.pyReprFields fs

end

/-- Python `str(x)`, as interpolated by an f-string. -/
def Json.pyStr : Json → String
  | .str s => s
  | j => j.pyRepr

/-- Python `x.get(key, default)`: returns the stored value or the default
when `x` is a dict, raises `AttributeError` (modelled `none`) otherwise. -/
def pyGet (j : Json) (key : String) (default : Json) : Option Json :=
  match j with
  | .obj fs => some ((fs.lookup key).getD default)
  | _ => none

/-- Python `x[0]`: first element of a list, first character of a string
(`IndexError` on empty, modelled `none`), `TypeError`/`KeyError`
(also `none`) on other values. -/
def pyIndexZero : Json → Option Json
  | .arr (x :: _) => some x
  | .str s =>
    match s.toList with
    | c :: _ => some (.str (String.mk [c]))
    | [] => none
  | _ => none

-- Constants from the source file (lines 23-32).  The two timeout floats are
-- irrelevant to every claim and are not modelled.
def UNIPROT_API_SEARCH : String :=
  "https://rest.uniprot.org/uniprotkb/search?query=\x7bquery\x7d organism_name:\"Homo sapiens\" AND reviewed:true &format=json"

def MAX_SEARCH_RESULTS : Nat := 5

def SEQUENCE_DISPLAY_LIMIT : Nat := 500

def SEQUENCE_LINE_LENGTH : Nat := 60

/-- The `params` dict of the first GET in `make_uniprot_request_by_name`
(source lines 130-134): `query = f"{protein_name}"`, `format = "json"`,
`size = MAX_SEARCH_RESULTS`. -/
structure SearchParams where
  query : String
  format : String
  size : Nat
  deriving DecidableEq

def first_search_params (protein_name : String) : SearchParams :=
  { query := protein_name, format := "json", size := MAX_SEARCH_RESULTS }

/-- The `params` dict of the second ("fallback") GET in
`make_uniprot_request_by_name` (source lines 144-148). -/
def fallback_search_params (protein_name : String) : SearchParams :=
  { query := protein_name, format := "json", size := MAX_SEARCH_RESULTS }

-- The file's emoji string constants are mojibake: the bytes on disk decode
-- to these exact character sequences, which is what the running program puts
-- in its strings.
def emojiDna : String := "ðŸ§¬"

def emojiPage : String := "ðŸ“„"

def emojiSearch : String := "ðŸ”"

def emojiBulb : String := "ðŸ’¡"

/-- Python `sep.join(parts)`. -/
def pyJoin (sep : String) : List String → String
  | [] => ""
  | [x] => x
  | x :: xs => x ++ sep ++ pyJoin sep xs

/-- Successive slices `l[i : i+k]` for `i in range(0, len l, k)` (`k ≥ 1`):
for a non-empty list the first slice is `l.take k = c :: cs.take (k-1)` and
the remainder is `l.drop k = cs.drop (k-1)`. -/
def chunksL (k : Nat) : List Char → List (List Char)
  | [] => []
  | c :: cs => (c :: cs.take (k - 1)) :: chunksL k (cs.drop (k - 1))
  termination_by l => l.length
  decreasing_by simp [List.length_drop]; omega

/-- The generator `sequence[i : i + SEQUENCE_LINE_LENGTH] for i in
range(0, len(sequence), SEQUENCE_LINE_LENGTH)` from `format_sequence`. -/
def seq_chunks (sequence : String) : List String :=
  (chunksL SEQUENCE_LINE_LENGTH sequence.toList).map String.mk

/-- Section header emitted in front of a displayed sequence. -/
def seqSectionLabel : String := "\n\n" ++ emojiPage ++ " **Amino Acid Sequence**:\n"

/-- Prefix of the elision notice for sequences above the display limit. -/
def seqOmittedPrefix : String := "\n\n" ++ emojiPage ++ " **Amino Acid Sequence**: Too long to display ("

/-- `format_sequence` (source lines 225-242). -/
def format_sequence (sequence : String) : String :=
  if sequence.length ≤ SEQUENCE_DISPLAY_LIMIT then
    seqSectionLabel ++ pyJoin "\n" (seq_chunks sequence)
  else
    seqOmittedPrefix ++ sequence.length.repr ++ " amino acids)"

/-- The `if protein_name == "N/A"` body of `extract_protein_name` (source
lines 188-193): re-reads `proteinDescription`, and when `submittedNames` is
truthy replaces `protein_name` with `submitted_names[0]["fullName"]["value"]`
(default `"N/A"`); otherwise `protein_name` is left as it was. -/
def submitted_name_of (uniprot_data protein_name : Json) : Option Json := do
  let pd2 ← pyGet uniprot_data "proteinDescription" (.obj [])
  let submitted_names ← pyGet pd2 "submittedNames" (.arr [])
  if submitted_names.truthy then do
    let s0 ← pyIndexZero submitted_names
    let fn2 ← pyGet s0 "fullName" (.obj [])
    pyGet fn2 "value" (.str "N/A")
  else
    pure protein_name

/-- `extract_protein_name` (source lines 171-195).  The chained tolerant
lookups raise `AttributeError` (modelled `none`) on a wrong-typed field. -/
def extract_protein_name (uniprot_data : Json) : Option Json := do
  let pd ← pyGet uniprot_data "proteinDescription" (.obj [])
  let rn ← pyGet pd "recommendedName" (.obj [])
  let fn ← pyGet rn "fullName" (.obj [])
  let protein_name ← pyGet fn "value" (.str "N/A")
  if protein_name.eqStr "N/A" then
    submitted_name_of uniprot_data protein_name
  else
    pure protein_name

/-- The `for comment in ...` loop body of `extract_protein_description`
(source lines 211-216): the first comment whose `commentType` is
`"FUNCTION"` and whose `texts` is truthy breaks with `texts[0].value`
(default `""`); when the loop finishes without breaking, `description`
keeps its initial value `""`. -/
def scan_comments : List Json → Option Json
  | [] => some (.str "")
  | comment :: rest => do
    let ct ← pyGet comment "commentType" .null
    if ct.eqStr "FUNCTION" then do
      let texts ← pyGet comment "texts" (.arr [])
      if texts.truthy then do
        let t0 ← pyIndexZero texts
        pyGet t0 "value" (.str "")
      else
        scan_comments rest
    else
      scan_comments rest

/-- Python iteration `for x in j`: elements of a list, characters of a
string, keys of a dict; `TypeError` (modelled `none`) otherwise. -/
def pyIterList : Json → Option (List Json)
  | .arr xs => some xs
  | .str s => some (s.toList.map (fun c => .str (String.mk [c])))
  | .obj fs => some (fs.map (fun kv => .str kv.1))
  | _ => none

/-- `extract_protein_description` (source lines 198-222). -/
def extract_protein_description (uniprot_data : Json) : Option Json := do
  let comments ← pyGet uniprot_data "comments" (.arr [])
  let clist ← pyIterList comments
  let description ← scan_comments clist
  if description.truthy then
    pure description
  else
    extract_protein_name uniprot_data

-- ------------------------------------------------------------------
-- Registry client: `make_uniprot_request_by_name` (source lines 113-168)
-- ------------------------------------------------------------------

/-- Outcome of one GET inside the client's `try` block: `failure` covers a
transport error, a non-success HTTP status (raised by
`raise_for_status()`), or a JSON-parse error; `success body` is the parsed
`response.json()`. -/
inductive NetResult where
  | failure
  | success (body : Json)

/-- The condition `data.get("results") and len(data["results"]) > 0`
(source line 140).  `none` is a dynamic error (caught by the surrounding
`except Exception`, which makes the whole call return `None`):
`data` not a dict, or a truthy `results` value without `len`. -/
def first_phase_has_results (data : Json) : Option Bool :=
  match data with
  | .obj fs =>
    let r := (fs.lookup "results").getD .null
    if r.truthy then
      match r with
      | .arr xs => some (xs.length > 0)
      | .str s => some (s.length > 0)
      | .obj gs => some (gs.length > 0)
      | _ => none
    else
      some false
  | _ => none

/-- `make_uniprot_request_by_name` as a function of the two phase
responses: first GET, then — only when the first parsed body has no
results — the fallback GET, whose parsed body is returned unchanged. -/
def make_uniprot_request_by_name (resp1 resp2 : NetResult) : Option Json :=
  match resp1 with
  | .failure => none
  | .success data =>
    match first_phase_has_results data with
    | none => none
    | some true => some data
    | some false =>
      match resp2 with
      | .failure => none
      | .success d2 => some d2

/-- Number of fallback (second-phase) GETs the client issues for given
first-phase outcome. -/
def fallback_request_count (resp1 : NetResult) : Nat :=
  match resp1 with
  | .failure => 0
  | .success data =>
    match first_phase_has_results data with
    | some false => 1
    | _ => 0

/-- The first phase succeeded and yielded zero results (no `results`
field, or a falsy one). -/
def FirstYieldsZero (resp1 : NetResult) : Prop :=
  ∃ data, resp1 = .success data ∧ first_phase_has_results data = some false

-- ------------------------------------------------------------------
-- Query orchestrator: the three MCP tools (source lines 245-389)
-- ------------------------------------------------------------------

/-- The failure message of `get_protein_structure` (source line 273). -/
def unableFetchMsg (uniprot_accession : String) : String :=
  "Unable to fetch UniProt information for accession " ++ uniprot_accession ++ "."

/-- `sequence` is fed to `format_sequence`, whose `len`/slice/`join`
string operations require an actual string; a wrong-typed value is
modelled as a dynamic error (it cannot occur on schema-shaped records,
where the field is either absent — defaulting to `"N/A"` — or a string). -/
def pySeqString : Json → Option String
  | .str s => some s
  | _ => none

/-- `pdb_url`: `"N/A"`, overwritten with `alphafold_models[0].get("pdbUrl",
"N/A")` when the model list is truthy (source lines 285-288). -/
def alphafold_pdb_url (alphafold_models : Json) : Option Json :=
  if alphafold_models.truthy then do
    let m0 ← pyIndexZero alphafold_models
    pyGet m0 "pdbUrl" (.str "N/A")
  else
    pure (.str "N/A")

/-- The final f-string of `get_protein_structure` (source lines 292-300),
with the AlphaFold page URL built from the accession. -/
def assemble_report (uniprot_accession accession protein_name organism description pdb_url : String)
    (sequence_section : String) : String :=
  emojiDna ++ " **Protein Information and AlphaFold Structure**\n" ++
  "- **UniProt ID**: " ++ accession ++ "\n" ++
  "- **Protein Name**: " ++ protein_name ++ "\n" ++
  "- **Organism**: " ++ organism ++ "\n" ++
  "- **Description**: " ++ description ++ "\n" ++
  "- **AlphaFold Page**: https://alphafold.ebi.ac.uk/entry/" ++ uniprot_accession ++ "\n" ++
  "- **Download PDB**: " ++ pdb_url ++ sequence_section

/-- `get_protein_structure` (source lines 245-300), as a function of the
two registry responses.  `uniprot_resp = none` models a failed
`make_uniprot_request_by_accession`; `alphafold_resp` is what
`make_alphafold_request` returned (`Json.arr []` on failure).  A `none`
result means the tool raises. -/
def get_protein_structure (uniprot_accession : String) (uniprot_resp : Option Json)
    (alphafold_resp : Json) : Option String :=
  match uniprot_resp with
  | none => some (unableFetchMsg uniprot_accession)
  | some uniprot_data =>
    if uniprot_data.truthy then do
      let accession ← pyGet uniprot_data "primaryAccession" (.str "N/A")
      let protein_name ← extract_protein_name uniprot_data
      let description ← extract_protein_description uniprot_data
      let organismHolder ← pyGet uniprot_data "organism" (.obj [])
      let organism ← pyGet organismHolder "scientificName" (.str "N/A")
      let sequenceHolder ← pyGet uniprot_data "sequence" (.obj [])
      let sequenceVal ← pyGet sequenceHolder "value" (.str "N/A")
      let sequence ← pySeqString sequenceVal
      let pdb_url ← alphafold_pdb_url alphafold_resp
      pure (assemble_report uniprot_accession accession.pyStr protein_name.pyStr
        organism.pyStr description.pyStr pdb_url.pyStr (format_sequence sequence))
    else
      some (unableFetchMsg uniprot_accession)

/-- Failure message of `search_proteins` on an absent search result
(source line 327). -/
def unableSearchMsg (protein_name : String) : String :=
  "Unable to search for proteins matching \x27" ++ protein_name ++ "\x27"

/-- Message of `search_proteins` on an empty result list (source line 331). -/
def noFoundMsg (protein_name : String) : String :=
  "No proteins found matching \x27" ++ protein_name ++ "\x27"

/-- One iteration of the candidate loop in `search_proteins` (source lines
335-352), for 1-based index `i`. -/
def render_candidate (i : Nat) (result : Json) : Option String := do
  let accession ← pyGet result "primaryAccession" (.str "N/A")
  let protein_name_full ← extract_protein_name result
  let organismHolder ← pyGet result "organism" (.obj [])
  let organism ← pyGet organismHolder "scientificName" (.str "N/A")
  let genesProbe ← pyGet result "genes" .null
  let gene_name ←
    if genesProbe.truthy then do
      let genes ← pyGet result "genes" (.arr [.obj []])
      let g0 ← pyIndexZero genes
      let gn ← pyGet g0 "geneName" (.obj [])
      pyGet gn "value" (.str "N/A")
    else
      pure (.str "N/A")
  let organism_display :=
    if organism.eqStr "Homo sapiens" then "**" ++ organism.pyStr ++ "**" else organism.pyStr
  pure (i.repr ++ ". **" ++ accession.pyStr ++ "** - " ++ protein_name_full.pyStr ++
    "\n   Gene: " ++ gene_name.pyStr ++ " | Organism: " ++ organism_display)

/-- `enumerate(results[:MAX_SEARCH_RESULTS], 1)` rendered in order. -/
def render_list : Nat → List Json → Option (List String)
  | _, [] => some []
  | i, r :: rest => do
    let c ← render_candidate i r
    let cs ← render_list (i + 1) rest
    pure (c :: cs)

def render_candidates (results : List Json) : Option (List String) :=
  render_list 1 (results.take MAX_SEARCH_RESULTS)

/-- The fixed usage hint appended to search output (source line 354). -/
def searchNote : String :=
  "\n\n" ++ emojiBulb ++ " Human proteins are prioritized and shown in bold. Use the accession number with get_protein_structure() for detailed information."

/-- `search_proteins` (source lines 303-359) as a function of the value
returned by `make_uniprot_request_by_name`. -/
def search_proteins (protein_name : String) (data : Option Json) : Option String :=
  match data with
  | none => some (unableSearchMsg protein_name)
  | some d =>
    if d.truthy then
      match pyGet d "results" (.arr []) with
      | none => none
      | some results =>
        if results.truthy then
          match results with
          | .arr rs => do
            let candidates ← render_candidates rs
            pure (emojiSearch ++ " **Search results for \x27" ++ protein_name ++ "\x27:**\n\n" ++
              pyJoin "\n\n" candidates ++ searchNote)
          | _ => none
        else
          some (noFoundMsg protein_name)
    else
      some (unableSearchMsg protein_name)

/-- `get_uniprot_id` (source lines 362-389) as a function of the value
returned by `make_uniprot_request_by_name`. -/
def get_uniprot_id (protein : String) (data : Option Json) : Option String :=
  match data with
  | none => some ("Unable to search for UniProt ID for \x27" ++ protein ++ "\x27")
  | some d =>
    if d.truthy then
      match pyGet d "results" (.arr []) with
      | none => none
      | some results =>
        if results.truthy then do
          let r0 ← pyIndexZero results
          let uniprot_id ← pyGet r0 "primaryAccession" (.str "N/A")
          pure ("UniProt ID for \x27" ++ protein ++ "\x27: " ++ uniprot_id.pyStr)
        else
          some ("No UniProt ID found for \x27" ++ protein ++ "\x27")
    else
      some ("Unable to search for UniProt ID for \x27" ++ protein ++ "\x27")

def unableIdMsg (protein : String) : String :=
  "Unable to search for UniProt ID for \x27" ++ protein ++ "\x27"

def noIdMsg (protein : String) : String :=
  "No UniProt ID found for \x27" ++ protein ++ "\x27"

-- ------------------------------------------------------------------
-- Schema-shaped records and total field accessors
-- ------------------------------------------------------------------

/-- Total variant of `pyGet`: field value, or the default when the field is
missing or the holder is not an object. -/
def jGetD (j : Json) (key : String) (default : Json) : Json :=
  match j with
  | .obj fs => (fs.lookup key).getD default
  | _ => default

/-- The record's `proteinDescription.recommendedName.fullName.value`, when
every holder on the path is an object carrying the next field. -/
def recommendedValue (d : Json) : Option Json :=
  match d with
  | .obj fs =>
    match fs.lookup "proteinDescription" with
    | some (.obj pfs) =>
      match pfs.lookup "recommendedName" with
      | some (.obj rfs) =>
        match rfs.lookup "fullName" with
        | some (.obj ffs) => ffs.lookup "value"
        | _ => none
      | _ => none
    | _ => none
  | _ => none

/-- First element of the record's `submittedNames` list, when that list is
present and non-empty. -/
def firstSubmittedHolder (d : Json) : Option Json :=
  match jGetD (jGetD d "proteinDescription" (.obj [])) "submittedNames" (.arr []) with
  | .arr (h :: _) => some h
  | _ => none

/-- The first submitted full name (the sentinel when the submitted list is
missing or empty, or when its first entry carries no value). -/
def submittedSpec (d : Json) : Json :=
  match firstSubmittedHolder d with
  | some h => jGetD (jGetD h "fullName" (.obj [])) "value" (.str "N/A")
  | none => .str "N/A"

/-- Display name on a schema-shaped record: the recommended full name when
present and different from the `"N/A"` sentinel, else the first submitted
full name, else the sentinel. -/
def extractName_spec (d : Json) : Json :=
  let rv := (recommendedValue d).getD (.str "N/A")
  if rv.eqStr "N/A" then submittedSpec d else rv

/-- The record's `comments` list (empty when absent or not a list). -/
def commentsListOf (d : Json) : List Json :=
  match jGetD d "comments" (.arr []) with
  | .arr cs => cs
  | _ => []

/-- First comment tagged `"FUNCTION"` that carries a non-empty `texts`
list: its first text's `value` (default `""`). -/
def firstFunctionText : List Json → Option Json
  | [] => none
  | c :: rest =>
    if (jGetD c "commentType" .null).eqStr "FUNCTION" then
      match jGetD c "texts" (.arr []) with
      | .arr (t0 :: _) => some (jGetD t0 "value" (.str ""))
      | _ => firstFunctionText rest
    else
      firstFunctionText rest

/-- Description on a schema-shaped record: the first functional-comment
text when found and truthy, else the display name. -/
def descSpec (d : Json) : Json :=
  match firstFunctionText (commentsListOf d) with
  | some v => if v.truthy then v else extractName_spec d
  | none => extractName_spec d

def accOf (d : Json) : Json := jGetD d "primaryAccession" (.str "N/A")

def orgOf (d : Json) : Json :=
  jGetD (jGetD d "organism" (.obj [])) "scientificName" (.str "N/A")

def seqValOf (d : Json) : Json :=
  jGetD (jGetD d "sequence" (.obj [])) "value" (.str "N/A")

def seqStrOf (d : Json) : String :=
  match seqValOf d with
  | .str s => s
  | _ => "N/A"

/-- The PDB URL value displayed for a given AlphaFold response body. -/
def pdbOf (af : Json) : Json :=
  match af with
  | .arr ((.obj fs) :: _) => (fs.lookup "pdbUrl").getD (.str "N/A")
  | _ => .str "N/A"

-- Well-formedness: the response shape the spec's data model describes —
-- every field either absent or of its schema type.  These predicates are
-- sufficient conditions under which the tolerant lookups never raise.

/-- Absent, or an object. -/
def wfObjOpt : Option Json → Bool
  | none => true
  | some (.obj _) => true
  | some _ => false

/-- Absent, or an object whose `key` field is absent or an object. -/
def wfHolder (key : String) : Option Json → Bool
  | none => true
  | some (.obj fs) => wfObjOpt (fs.lookup key)
  | some _ => false

/-- Absent or falsy, or a list headed by an object whose `key` field is
absent or an object. -/
def wfOptHeaded (key : String) : Option Json → Bool
  | none => true
  | some v =>
    !v.truthy ||
      (match v with
       | .arr ((.obj fs) :: _) => wfObjOpt (fs.lookup key)
       | _ => false)

/-- A comment record: an object whose `texts` is absent, falsy, or a list
headed by an object. -/
def wfComment : Json → Bool
  | .obj fs =>
    (match fs.lookup "texts" with
     | none => true
     | some v =>
       !v.truthy ||
         (match v with
          | .arr ((.obj _) :: _) => true
          | _ => false))
  | _ => false

/-- Absent, or a list of comment records. -/
def wfComments : Option Json → Bool
  | none => true
  | some (.arr cs) => cs.all wfComment
  | some _ => false

/-- Absent, or an object whose `value` is absent or a string. -/
def wfSeq : Option Json → Bool
  | none => true
  | some (.obj fs) =>
    (match fs.lookup "value" with
     | none => true
     | some (.str _) => true
     | some _ => false)
  | some _ => false

/-- A schema-shaped annotation record (the spec's `ProteinRecord`): an
object each of whose known fields is absent or of the expected type. -/
def WfRecord : Json → Bool
  | .obj fs =>
    (match fs.lookup "proteinDescription" with
     | none => true
     | some (.obj pfs) =>
       wfHolder "fullName" (pfs.lookup "recommendedName") &&
         wfOptHeaded "fullName" (pfs.lookup "submittedNames")
     | some _ => false) &&
    wfComments (fs.lookup "comments") &&
    wfObjOpt (fs.lookup "organism") &&
    wfSeq (fs.lookup "sequence") &&
    wfOptHeaded "geneName" (fs.lookup "genes")
  | _ => false

/-- A schema-shaped AlphaFold response: falsy, or a list of prediction
objects. -/
def WfPreds (af : Json) : Bool :=
  !af.truthy ||
    (match af with
     | .arr ((.obj _) :: _) => true
     | _ => false)

/-- A schema-shaped search response body: an object whose `results` is
absent, falsy, or a list of schema-shaped records. -/
def WfSearchData : Json → Bool
  | .obj fs =>
    (match fs.lookup "results" with
     | none => true
     | some v =>
       !v.truthy ||
         (match v with
          | .arr rs => rs.all WfRecord
          | _ => false))
  | _ => false

/-- The claim's "with line breaks removed" operation. -/
def removeNewlines (s : String) : String :=
  String.mk (s.data.filter (fun c => c != '\n'))

-- ------------------------------------------------------------------
-- Lemmas about sequence chunking (`format_sequence`)
-- ------------------------------------------------------------------

theorem chunksL_flatten (k : Nat) (l : List Char) : (chunksL k l).flatten = l := by
  induction l using chunksL.induct k with
  | case1 => simp [chunksL]
  | case2 c cs ih => simp [chunksL, ih]

theorem chunksL_short (k : Nat) (l : List Char) (hne : l ≠ []) (hlen : l.length ≤ k) :
    chunksL k l = [l] := by
  match l with
  | [] => exact absurd rfl hne
  | c :: cs =>
    have hc : cs.length ≤ k - 1 := by simp at hlen; omega
    have h1 : cs.take (k - 1) = cs := List.take_of_length_le hc
    have h2 : cs.drop (k - 1) = [] := List.drop_eq_nil_of_le hc
    simp [chunksL, h1, h2]

theorem chunksL_mem_length (k : Nat) (hk : 1 ≤ k) (l : List Char) :
    ∀ x ∈ chunksL k l, x.length ≤ k := by
  induction l using chunksL.induct k with
  | case1 => simp [chunksL]
  | case2 c cs ih =>
    intro x hx
    simp only [chunksL, List.mem_cons] at hx
    rcases hx with h | h
    · subst h; simp [List.length_take]; omega
    · exact ih x h

theorem chunksL_dropLast_length (k : Nat) (hk : 1 ≤ k) (l : List Char) :
    ∀ x ∈ (chunksL k l).dropLast, x.length = k := by
  induction l using chunksL.induct k with
  | case1 => simp [chunksL]
  | case2 c cs ih =>
    intro x hx
    simp only [chunksL] at hx
    cases hrest : chunksL k (cs.drop (k - 1)) with
    | nil => rw [hrest] at hx; simp at hx
    | cons b bs =>
      rw [hrest] at hx
      simp only [List.dropLast_cons₂, List.mem_cons] at hx
      rcases hx with h | h
      · subst h
        have hne : cs.drop (k - 1) ≠ [] := by
          intro hdrop; rw [hdrop] at hrest; simp [chunksL] at hrest
        have hlen : k - 1 ≤ cs.length := by
          by_contra hcon
          exact hne (List.drop_eq_nil_of_le (by omega))
        simp [List.length_take]; omega
      · rw [← hrest] at h
        exact ih x h

theorem chunksL_mem_mem (k : Nat) (l x : List Char) (hx : x ∈ chunksL k l)
    (a : Char) (ha : a ∈ x) : a ∈ l := by
  rw [← chunksL_flatten k l]
  exact List.mem_flatten.mpr ⟨x, hx, ha⟩

theorem filter_pyJoin_newline (parts : List String)
    (h : ∀ p ∈ parts, ∀ c ∈ p.data, c ≠ '\n') :
    (pyJoin "\n" parts).data.filter (fun c => c != '\n') =
      (parts.map String.data).flatten := by
  induction parts with
  | nil => simp [pyJoin]
  | cons x xs ih =>
    cases xs with
    | nil =>
      simp only [pyJoin, List.map_cons, List.map_nil, List.flatten_cons, List.flatten_nil,
        List.append_nil]
      exact List.filter_eq_self.mpr fun c hc => by
        simpa using h x (by simp) c hc
    | cons y ys =>
      have hx : x.data.filter (fun c => c != '\n') = x.data :=
        List.filter_eq_self.mpr fun c hc => by
          simpa using h x (by simp) c hc
      have hrec := ih fun p hp c hc => h p (by simp [hp]) c hc
      have hgoal : (x ++ "\n" ++ pyJoin "\n" (y :: ys)).data =
          x.data ++ '\n' :: (pyJoin "\n" (y :: ys)).data := by
        simp
      show ((x ++ "\n" ++ pyJoin "\n" (y :: ys)).data.filter (fun c => c != '\n')) = _
      rw [hgoal, List.filter_append, hx, List.filter_cons]
      have hne : (('\n' : Char) != '\n') = false := by decide
      rw [hne]
      simp only [Bool.false_eq_true, if_false, hrec, List.map_cons, List.flatten_cons]

theorem removeNewlines_body (s : String) (hnl : '\n' ∉ s.data) :
    removeNewlines (pyJoin "\n" (seq_chunks s)) = s := by
  unfold removeNewlines seq_chunks
  have h : ∀ p ∈ (chunksL SEQUENCE_LINE_LENGTH s.data).map String.mk,
      ∀ c ∈ p.data, c ≠ '\n' := by
    intro p hp c hc hceq
    simp only [List.mem_map] at hp
    obtain ⟨x, hx, rfl⟩ := hp
    subst hceq
    exact hnl (chunksL_mem_mem _ _ x hx '\n' hc)
  rw [show s.toList = s.data from rfl, filter_pyJoin_newline _ h]
  rw [List.map_map, show String.data ∘ String.mk = id from rfl, List.map_id]
  rw [chunksL_flatten]

theorem lt_ten_pow (n : Nat) : n < 10 ^ (n / 10 + 1) := by
  have h1 : n / 10 < 10 ^ (n / 10) := Nat.lt_pow_self (by norm_num) _
  have h2 : 10 ^ (n / 10 + 1) = 10 * 10 ^ (n / 10) := by ring
  omega

theorem repr_length_le (n : Nat) : n.repr.length ≤ n / 10 + 1 :=
  Nat.repr_length n (n / 10 + 1) (by omega) (lt_ten_pow n)

theorem format_sequence_short (s : String) (h : s.length ≤ SEQUENCE_DISPLAY_LIMIT) :
    format_sequence s = seqSectionLabel ++ pyJoin "\n" (seq_chunks s) := by
  unfold format_sequence
  rw [if_pos h]

theorem format_sequence_long_eq (s : String) (h : SEQUENCE_DISPLAY_LIMIT < s.length) :
    format_sequence s = seqOmittedPrefix ++ s.length.repr ++ " amino acids)" := by
  unfold format_sequence
  rw [if_neg (by omega)]

theorem format_sequence_long_excludes_raw (s : String) (h : SEQUENCE_DISPLAY_LIMIT < s.length) :
    ¬ (s.data <:+: (format_sequence s).data) := by
  intro hinf
  have hlen := hinf.length_le
  have h1 : (format_sequence s).length =
      seqOmittedPrefix.length + s.length.repr.length + (" amino acids)" : String).length := by
    rw [format_sequence_long_eq s h, String.length_append, String.length_append]
  have h2 : s.length.repr.length ≤ s.length / 10 + 1 := repr_length_le _
  have h3 : seqOmittedPrefix.length ≤ 60 := by decide
  have h4 : (" amino acids)" : String).length ≤ 20 := by decide
  have h5 : s.data.length = s.length := rfl
  have h6 : (format_sequence s).data.length = (format_sequence s).length := rfl
  rw [h5, h6] at hlen
  unfold SEQUENCE_DISPLAY_LIMIT at h
  omega

theorem format_sequence_long_has_length (s : String) (h : SEQUENCE_DISPLAY_LIMIT < s.length) :
    s.length.repr.data <:+: (format_sequence s).data := by
  refine ⟨seqOmittedPrefix.data, (" amino acids)" : String).data, ?_⟩
  rw [format_sequence_long_eq s h]
  simp

-- ------------------------------------------------------------------
-- The tolerant extractors never raise on schema-shaped records
-- ------------------------------------------------------------------

theorem eqStr_true {v : Json} {t : String} (h : v.eqStr t = true) : v = .str t := by
  cases v <;> simp [Json.eqStr] at h
  simp [h]

theorem submitted_branch_eq (fs pfs : List (String × Json))
    (hl : fs.lookup "proteinDescription" = some (.obj pfs))
    (hsn : wfOptHeaded "fullName" (pfs.lookup "submittedNames") = true) :
    submitted_name_of (.obj fs) (.str "N/A") = some (submittedSpec (.obj fs)) := by
  unfold submitted_name_of submittedSpec firstSubmittedHolder
  cases hs : pfs.lookup "submittedNames" with
  | none =>
    simp [pyGet, jGetD, hl, hs, Json.truthy]
  | some v =>
    rw [hs] at hsn
    simp only [wfOptHeaded] at hsn
    cases hv : v.truthy with
    | false =>
      cases v with
      | arr elts =>
        cases elts with
        | nil => simp [pyGet, jGetD, hl, hs, Json.truthy]
        | cons a t => simp [Json.truthy] at hv
      | null => simp [pyGet, jGetD, hl, hs, Json.truthy]
      | bool b => simp [pyGet, jGetD, hl, hs, hv]
      | num n => simp [pyGet, jGetD, hl, hs, hv]
      | str s => simp [pyGet, jGetD, hl, hs, hv]
      | obj o => simp [pyGet, jGetD, hl, hs, hv]
    | true =>
      rw [hv] at hsn
      simp only [Bool.not_true, Bool.false_or] at hsn
      cases v with
      | arr elts =>
        cases elts with
        | nil => simp [Json.truthy] at hv
        | cons h0 t =>
          cases h0 with
          | obj ffs =>
            have hsn2 : wfObjOpt (ffs.lookup "fullName") = true := hsn
            cases hf : ffs.lookup "fullName" with
            | none =>
              simp [pyGet, jGetD, pyIndexZero, hl, hs, hf, Json.truthy]
            | some fn =>
              rw [hf] at hsn2
              cases fn with
              | obj f2 =>
                simp [pyGet, jGetD, pyIndexZero, hl, hs, hf, Json.truthy]
              | null | bool _ | num _ | str _ | arr _ => simp [wfObjOpt] at hsn2
          | null | bool _ | num _ | str _ | arr _ => simp at hsn
      | null | bool _ | num _ | str _ | obj _ => simp at hsn

theorem extract_name_wf (d : Json) (h : WfRecord d = true) :
    extract_protein_name d = some (extractName_spec d) := by
  match d with
  | .null | .bool _ | .num _ | .str _ | .arr _ => simp [WfRecord] at h
  | .obj fs =>
    simp only [WfRecord, Bool.and_eq_true] at h
    obtain ⟨⟨⟨⟨hpd, hcm⟩, horg⟩, hsq⟩, hgn⟩ := h
    cases hl : fs.lookup "proteinDescription" with
    | none =>
      simp [extract_protein_name, submitted_name_of, extractName_spec, submittedSpec,
        recommendedValue, firstSubmittedHolder, pyGet, jGetD, hl, Json.eqStr, Json.truthy]
    | some pd =>
      rw [hl] at hpd
      cases pd with
      | obj pfs =>
        simp only [Bool.and_eq_true] at hpd
        obtain ⟨hrn, hsn⟩ := hpd
        have hbranch := submitted_branch_eq fs pfs hl hsn
        cases hrl : pfs.lookup "recommendedName" with
        | none =>
          simp [extract_protein_name, extractName_spec, recommendedValue, pyGet, jGetD,
            hl, hrl, Json.eqStr, hbranch]
        | some rn =>
          rw [hrl] at hrn
          cases rn with
          | obj rfs =>
            have hrn2 : wfObjOpt (rfs.lookup "fullName") = true := hrn
            cases hfl : rfs.lookup "fullName" with
            | none =>
              simp [extract_protein_name, extractName_spec, recommendedValue, pyGet, jGetD,
                hl, hrl, hfl, Json.eqStr, hbranch]
            | some fn =>
              rw [hfl] at hrn2
              cases fn with
              | obj ffs =>
                cases hvl : ffs.lookup "value" with
                | none =>
                  simp [extract_protein_name, extractName_spec, recommendedValue, pyGet,
                    jGetD, hl, hrl, hfl, hvl, Json.eqStr, hbranch]
                | some v =>
                  cases hv : v.eqStr "N/A" with
                  | true =>
                    rw [eqStr_true hv] at hvl
                    simp [extract_protein_name, extractName_spec, recommendedValue, pyGet,
                      jGetD, hl, hrl, hfl, hvl, Json.eqStr, hbranch]
                  | false =>
                    simp [extract_protein_name, extractName_spec, recommendedValue, pyGet,
                      jGetD, hl, hrl, hfl, hvl, hv]
              | null | bool _ | num _ | str _ | arr _ => simp [wfObjOpt] at hrn2
          | null | bool _ | num _ | str _ | arr _ => simp [wfHolder] at hrn
      | null | bool _ | num _ | str _ | arr _ => simp at hpd

theorem scan_comments_wf (cs : List Json) (h : cs.all wfComment = true) :
    scan_comments cs = some ((firstFunctionText cs).getD (.str "")) := by
  induction cs with
  | nil => simp [scan_comments, firstFunctionText]
  | cons c rest ih =>
    simp only [List.all_cons, Bool.and_eq_true] at h
    obtain ⟨hc, hrest⟩ := h
    cases c with
    | obj cfs =>
      cases hct : ((cfs.lookup "commentType").getD Json.null).eqStr "FUNCTION" with
      | false =>
        simp [scan_comments, firstFunctionText, pyGet, jGetD, hct, ih hrest]
      | true =>
        have hc2 : (match cfs.lookup "texts" with
            | none => true
            | some v =>
              !v.truthy ||
                (match v with
                 | .arr ((.obj _) :: _) => true
                 | _ => false)) = true := hc
        cases htl : cfs.lookup "texts" with
        | none =>
          simp [scan_comments, firstFunctionText, pyGet, jGetD, hct, htl, Json.truthy,
            ih hrest]
        | some v =>
          rw [htl] at hc2
          simp only [wfOptHeaded] at hc2
          cases hv : v.truthy with
          | false =>
            cases v with
            | arr elts =>
              cases elts with
              | nil =>
                simp [scan_comments, firstFunctionText, pyGet, jGetD, hct, htl,
                  Json.truthy, ih hrest]
              | cons a t => simp [Json.truthy] at hv
            | null =>
              simp [scan_comments, firstFunctionText, pyGet, jGetD, hct, htl,
                Json.truthy, ih hrest]
            | bool b =>
              simp [scan_comments, firstFunctionText, pyGet, jGetD, hct, htl, hv, ih hrest]
            | num n =>
              simp [scan_comments, firstFunctionText, pyGet, jGetD, hct, htl, hv, ih hrest]
            | str s =>
              simp [scan_comments, firstFunctionText, pyGet, jGetD, hct, htl, hv, ih hrest]
            | obj o =>
              simp [scan_comments, firstFunctionText, pyGet, jGetD, hct, htl, hv, ih hrest]
          | true =>
            rw [hv] at hc2
            simp only [Bool.not_true, Bool.false_or] at hc2
            cases v with
            | arr elts =>
              cases elts with
              | nil => simp [Json.truthy] at hv
              | cons h0 t =>
                cases h0 with
                | obj tfs =>
                  simp [scan_comments, firstFunctionText, pyGet, jGetD, pyIndexZero,
                    hct, htl, Json.truthy]
                | null | bool _ | num _ | str _ | arr _ => simp at hc2
            | null | bool _ | num _ | str _ | obj _ => simp at hc2
    | null | bool _ | num _ | str _ | arr _ => simp [wfComment] at hc

theorem extract_desc_wf (d : Json) (h : WfRecord d = true) :
    extract_protein_description d = some (descSpec d) := by
  match d with
  | .null | .bool _ | .num _ | .str _ | .arr _ => simp [WfRecord] at h
  | .obj fs =>
    have hname := extract_name_wf _ h
    simp only [WfRecord, Bool.and_eq_true] at h
    obtain ⟨⟨⟨⟨hpd, hcm⟩, horg⟩, hsq⟩, hgn⟩ := h
    cases hcl : fs.lookup "comments" with
    | none =>
      simp [extract_protein_description, descSpec, commentsListOf, pyGet, jGetD, hcl,
        pyIterList, scan_comments, firstFunctionText, Json.truthy, hname]
    | some cm =>
      rw [hcl] at hcm
      cases cm with
      | arr cs =>
        have hall : cs.all wfComment = true := hcm
        have hscan := scan_comments_wf cs hall
        cases hf : firstFunctionText cs with
        | none =>
          simp [extract_protein_description, descSpec, commentsListOf, pyGet, jGetD, hcl,
            pyIterList, hscan, hf, Json.truthy, hname]
        | some v =>
          cases hv : v.truthy with
          | true =>
            simp [extract_protein_description, descSpec, commentsListOf, pyGet, jGetD,
              hcl, pyIterList, hscan, hf, hv]
          | false =>
            simp [extract_protein_description, descSpec, commentsListOf, pyGet, jGetD,
              hcl, pyIterList, hscan, hf, hv, hname]
      | null | bool _ | num _ | str _ | obj _ => simp [wfComments] at hcm

theorem alphafold_pdb_url_wf (af : Json) (h : WfPreds af = true) :
    alphafold_pdb_url af = some (pdbOf af) := by
  unfold alphafold_pdb_url pdbOf
  cases hv : af.truthy with
  | false =>
    cases af with
    | arr elts =>
      cases elts with
      | nil => simp [Json.truthy]
      | cons a t => simp [Json.truthy] at hv
    | null => simp [Json.truthy]
    | bool b => simp [hv]
    | num n => simp [hv]
    | str s => simp [hv]
    | obj o => simp [hv]
  | true =>
    simp only [WfPreds, hv, Bool.not_true, Bool.false_or] at h
    cases af with
    | arr elts =>
      cases elts with
      | nil => simp [Json.truthy] at hv
      | cons h0 t =>
        cases h0 with
        | obj pfs => simp [Json.truthy, pyIndexZero, pyGet]
        | null | bool _ | num _ | str _ | arr _ => simp at h
    | null | bool _ | num _ | str _ | obj _ => simp at h

theorem get_structure_wf_eq (id : String) (d af : Json) (hd : WfRecord d = true)
    (ht : d.truthy = true) (haf : WfPreds af = true) :
    get_protein_structure id (some d) af =
      some (assemble_report id (accOf d).pyStr (extractName_spec d).pyStr (orgOf d).pyStr
        (descSpec d).pyStr (pdbOf af).pyStr (format_sequence (seqStrOf d))) := by
  have hname := extract_name_wf d hd
  have hdesc := extract_desc_wf d hd
  have hpdb := alphafold_pdb_url_wf af haf
  match d with
  | .null | .bool _ | .num _ | .str _ | .arr _ => simp [WfRecord] at hd
  | .obj fs =>
    simp only [WfRecord, Bool.and_eq_true] at hd
    obtain ⟨⟨⟨⟨hpd, hcm⟩, horg⟩, hsq⟩, hgn⟩ := hd
    cases ho : fs.lookup "organism" with
    | none =>
      cases hs : fs.lookup "sequence" with
      | none =>
        simp [get_protein_structure, pyGet, jGetD, accOf, orgOf, seqValOf, seqStrOf,
          pySeqString, ht, hname, hdesc, hpdb, ho, hs]
      | some sq =>
        rw [hs] at hsq
        cases sq with
        | obj sfs =>
          cases hvv : sfs.lookup "value" with
          | none =>
            simp [get_protein_structure, pyGet, jGetD, accOf, orgOf, seqValOf, seqStrOf,
              pySeqString, ht, hname, hdesc, hpdb, ho, hs, hvv]
          | some sv =>
            have hsq2 : (match sfs.lookup "value" with
                | none => true
                | some (.str _) => true
                | some _ => false) = true := hsq
            rw [hvv] at hsq2
            cases sv with
            | str s =>
              simp [get_protein_structure, pyGet, jGetD, accOf, orgOf, seqValOf, seqStrOf,
                pySeqString, ht, hname, hdesc, hpdb, ho, hs, hvv]
            | null | bool _ | num _ | arr _ | obj _ => simp at hsq2
        | null | bool _ | num _ | str _ | arr _ => simp [wfSeq] at hsq
    | some og =>
      rw [ho] at horg
      cases og with
      | obj ofs =>
        cases hs : fs.lookup "sequence" with
        | none =>
          simp [get_protein_structure, pyGet, jGetD, accOf, orgOf, seqValOf, seqStrOf,
            pySeqString, ht, hname, hdesc, hpdb, ho, hs]
        | some sq =>
          rw [hs] at hsq
          cases sq with
          | obj sfs =>
            cases hvv : sfs.lookup "value" with
            | none =>
              simp [get_protein_structure, pyGet, jGetD, accOf, orgOf, seqValOf, seqStrOf,
                pySeqString, ht, hname, hdesc, hpdb, ho, hs, hvv]
            | some sv =>
              have hsq2 : (match sfs.lookup "value" with
                  | none => true
                  | some (.str _) => true
                  | some _ => false) = true := hsq
              rw [hvv] at hsq2
              cases sv with
              | str s =>
                simp [get_protein_structure, pyGet, jGetD, accOf, orgOf, seqValOf,
                  seqStrOf, pySeqString, ht, hname, hdesc, hpdb, ho, hs, hvv]
              | null | bool _ | num _ | arr _ | obj _ => simp at hsq2
          | null | bool _ | num _ | str _ | arr _ => simp [wfSeq] at hsq
      | null | bool _ | num _ | str _ | arr _ => simp [wfObjOpt] at horg

theorem wfObjOpt_getD_obj (o : Option Json) (h : wfObjOpt o = true) :
    ∃ xs, o.getD (.obj []) = .obj xs := by
  cases o with
  | none => exact ⟨[], rfl⟩
  | some v =>
    cases v with
    | obj xs => exact ⟨xs, rfl⟩
    | null | bool _ | num _ | str _ | arr _ => simp [wfObjOpt] at h

theorem render_candidate_wf (i : Nat) (r : Json) (h : WfRecord r = true) :
    (render_candidate i r).isSome = true := by
  have hname := extract_name_wf r h
  match r with
  | .null | .bool _ | .num _ | .str _ | .arr _ => simp [WfRecord] at h
  | .obj fs =>
    simp only [WfRecord, Bool.and_eq_true] at h
    obtain ⟨⟨⟨⟨hpd, hcm⟩, horg⟩, hsq⟩, hgn⟩ := h
    obtain ⟨ofs, hofs⟩ := wfObjOpt_getD_obj _ horg
    cases hg : fs.lookup "genes" with
    | none =>
      simp [render_candidate, pyGet, jGetD, hname, hofs, hg, Json.truthy]
    | some g =>
      rw [hg] at hgn
      simp only [wfOptHeaded] at hgn
      cases hgt : g.truthy with
      | false =>
        simp [render_candidate, pyGet, jGetD, hname, hofs, hg, hgt]
      | true =>
        rw [hgt] at hgn
        simp only [Bool.not_true, Bool.false_or] at hgn
        cases g with
        | arr elts =>
          cases elts with
          | nil => simp [Json.truthy] at hgt
          | cons h0 t =>
            cases h0 with
            | obj gfs =>
              obtain ⟨gnf, hgnf⟩ := wfObjOpt_getD_obj _ hgn
              simp [render_candidate, pyGet, jGetD, hname, hofs, hg, Json.truthy,
                pyIndexZero, hgnf]
            | null | bool _ | num _ | str _ | arr _ => simp at hgn
        | null | bool _ | num _ | str _ | obj _ => simp at hgn

theorem render_list_wf (rs : List Json) (h : rs.all WfRecord = true) :
    ∀ i, ∃ l, render_list i rs = some l ∧ l.length = rs.length := by
  induction rs with
  | nil => exact fun i => ⟨[], rfl, rfl⟩
  | cons r rest ih =>
    intro i
    simp only [List.all_cons, Bool.and_eq_true] at h
    obtain ⟨hr, hrest⟩ := h
    obtain ⟨c, hc⟩ := Option.isSome_iff_exists.mp (render_candidate_wf i r hr)
    obtain ⟨l, hl, hlen⟩ := ih hrest (i + 1)
    exact ⟨c :: l, by simp [render_list, hc, hl], by simp [hlen]⟩

theorem render_list_length (rs : List Json) :
    ∀ (i : Nat) (l : List String), render_list i rs = some l → l.length = rs.length := by
  induction rs with
  | nil =>
    intro i l h
    simp [render_list] at h
    simp [← h]
  | cons r rest ih =>
    intro i l h
    cases hc : render_candidate i r with
    | none => simp [render_list, hc] at h
    | some c =>
      cases hrest : render_list (i + 1) rest with
      | none => simp [render_list, hc, hrest] at h
      | some cs =>
        simp [render_list, hc, hrest] at h
        have := ih (i + 1) cs hrest
        simp [← h, this]

theorem render_candidates_length_le (rs : List Json) (l : List String)
    (h : render_candidates rs = some l) : l.length ≤ MAX_SEARCH_RESULTS := by
  have h1 := render_list_length (rs.take MAX_SEARCH_RESULTS) 1 l h
  rw [h1]
  exact List.length_take_le _ _

theorem all_take {p : Json → Bool} (rs : List Json) (k : Nat) (h : rs.all p = true) :
    (rs.take k).all p = true := by
  rw [List.all_eq_true] at h ⊢
  exact fun x hx => h x (List.mem_of_mem_take hx)

theorem search_proteins_wf (n : String) (d : Json) (h : WfSearchData d = true) :
    (search_proteins n (some d)).isSome = true := by
  match d with
  | .null | .bool _ | .num _ | .str _ | .arr _ => simp [WfSearchData] at h
  | .obj fs =>
    have h2 : (match fs.lookup "results" with
        | none => true
        | some v =>
          !v.truthy ||
            (match v with
             | .arr rs => rs.all WfRecord
             | _ => false)) = true := h
    unfold search_proteins
    cases ht : (Json.obj fs).truthy with
    | false => simp [ht]
    | true =>
      simp only [Json.truthy] at ht
      cases hr : fs.lookup "results" with
      | none => simp [ht, pyGet, hr, Json.truthy]
      | some v =>
        rw [hr] at h2
        cases v with
        | arr rs =>
          cases rs with
          | nil => simp [ht, pyGet, hr, Json.truthy]
          | cons r0 rest =>
            have h3 : ((r0 :: rest).all WfRecord) = true := by
              have h4 : (!(Json.arr (r0 :: rest)).truthy || (r0 :: rest).all WfRecord)
                  = true := h2
              simpa [Json.truthy] using h4
            obtain ⟨l, hl, _⟩ :=
              render_list_wf ((r0 :: rest).take MAX_SEARCH_RESULTS) (all_take _ _ h3) 1
            simp [ht, pyGet, hr, render_candidates, hl, Json.truthy]
        | null => simp [ht, pyGet, hr, Json.truthy]
        | bool b =>
          have h4 : (!(Json.bool b).truthy || false) = true := h2
          simp [Json.truthy] at h4
          simp [ht, pyGet, hr, Json.truthy, h4]
        | num n =>
          have h4 : (!(Json.num n).truthy || false) = true := h2
          simp [Json.truthy] at h4
          simp [ht, pyGet, hr, Json.truthy, h4]
        | str s =>
          have h4 : (!(Json.str s).truthy || false) = true := h2
          simp [Json.truthy] at h4
          simp [ht, pyGet, hr, Json.truthy, h4]
        | obj o =>
          have h4 : (!(Json.obj o).truthy || false) = true := h2
          simp [Json.truthy] at h4
          simp [ht, pyGet, hr, Json.truthy, h4]

theorem dropLast_map {α β : Type} (f : α → β) (l : List α) :
    (l.map f).dropLast = l.dropLast.map f := by
  induction l with
  | nil => rfl
  | cons a t ih =>
    cases t with
    | nil => rfl
    | cons b t2 =>
      simp only [List.map_cons, List.dropLast_cons₂] at ih ⊢
      rw [ih]

theorem format_sequence_short_single (s : String) (h0 : s.data ≠ [])
    (h60 : s.length ≤ 60) : format_sequence s = seqSectionLabel ++ s := by
  rw [format_sequence_short s (by unfold SEQUENCE_DISPLAY_LIMIT; omega)]
  unfold seq_chunks
  rw [chunksL_short SEQUENCE_LINE_LENGTH s.toList h0 h60]
  rfl

theorem get_uniprot_id_wf (n : String) (d : Json) (h : WfSearchData d = true) :
    (get_uniprot_id n (some d)).isSome = true := by
  match d with
  | .null | .bool _ | .num _ | .str _ | .arr _ => simp [WfSearchData] at h
  | .obj fs =>
    have h2 : (match fs.lookup "results" with
        | none => true
        | some v =>
          !v.truthy ||
            (match v with
             | .arr rs => rs.all WfRecord
             | _ => false)) = true := h
    unfold get_uniprot_id
    cases ht : (Json.obj fs).truthy with
    | false => simp [ht]
    | true =>
      simp only [Json.truthy] at ht
      cases hr : fs.lookup "results" with
      | none => simp [ht, pyGet, hr, Json.truthy]
      | some v =>
        rw [hr] at h2
        cases v with
        | arr rs =>
          cases rs with
          | nil => simp [ht, pyGet, hr, Json.truthy]
          | cons r0 rest =>
            have h3 : ((r0 :: rest).all WfRecord) = true := by
              have h4 : (!(Json.arr (r0 :: rest)).truthy || (r0 :: rest).all WfRecord)
                  = true := h2
              simpa [Json.truthy] using h4
            simp only [List.all_cons, Bool.and_eq_true] at h3
            obtain ⟨hr0, _⟩ := h3
            match r0, hr0 with
            | .obj r0fs, _ =>
              simp [ht, pyGet, hr, pyIndexZero, Json.truthy]
        | null => simp [ht, pyGet, hr, Json.truthy]
        | bool b =>
          have h4 : (!(Json.bool b).truthy || false) = true := h2
          simp [Json.truthy] at h4
          simp [ht, pyGet, hr, Json.truthy, h4]
        | num n =>
          have h4 : (!(Json.num n).truthy || false) = true := h2
          simp [Json.truthy] at h4
          simp [ht, pyGet, hr, Json.truthy, h4]
        | str s =>
          have h4 : (!(Json.str s).truthy || false) = true := h2
          simp [Json.truthy] at h4
          simp [ht, pyGet, hr, Json.truthy, h4]
        | obj o =>
          have h4 : (!(Json.obj o).truthy || false) = true := h2
          simp [Json.truthy] at h4
          simp [ht, pyGet, hr, Json.truthy, h4]





-- ------------------------------------------------------------------
-- Concrete records used by witnesses and counterexamples
-- ------------------------------------------------------------------

/-- A schema-shaped human insulin record. -/
def insulinRecord : Json :=
  .obj
    [("primaryAccession", .str "P01308"),
     ("proteinDescription",
       .obj [("recommendedName", .obj [("fullName", .obj [("value", .str "Insulin")])])]),
     ("organism", .obj [("scientificName", .str "Homo sapiens")]),
     ("sequence", .obj [("value", .str "MALWMRLLPLLALLALWGPDPAAA")]),
     ("comments",
       .arr [.obj [("commentType", .str "FUNCTION"),
                   ("texts", .arr [.obj [("value",
                     .str "Insulin decreases blood glucose concentration.")]])]])]

/-- A record with no FUNCTION comment and recommended name Insulin. -/
def insulinNoFunctionRecord : Json :=
  .obj
    [("proteinDescription",
       .obj [("recommendedName", .obj [("fullName", .obj [("value", .str "Insulin")])])])]

/-- A non-absent record whose recommended full name is the empty string. -/
def emptyNameRecord : Json :=
  .obj
    [("proteinDescription",
       .obj [("recommendedName", .obj [("fullName", .obj [("value", .str "")])])])]

/-- A record whose recommended full name is literally the sentinel and whose
submitted list carries a different name. -/
def sentinelCollisionRecord : Json :=
  .obj
    [("proteinDescription",
       .obj [("recommendedName", .obj [("fullName", .obj [("value", .str "N/A")])]),
             ("submittedNames",
               .arr [.obj [("fullName", .obj [("value", .str "Insulin submitted")])]])])]

/-- A schema-shaped record with no sequence field. -/
def noSeqRecord : Json := .obj [("primaryAccession", .str "P01308")]

/-- Field labels that only success-path output of the structure lookup
carries. -/
def successLabels : List String :=
  ["**Protein Name**", "**Organism**", "**Description**", "**AlphaFold Page**",
   "**Download PDB**", "**Amino Acid Sequence**"]

-- ------------------------------------------------------------------
-- Claims
-- ------------------------------------------------------------------

/-- C1: The claim says the first registry request of the name search
constrains results to Homo sapiens and only the fallback omits the filter.
In the code both requests carry identical parameters; the query string is
the bare protein name, and the organism filter exists only in the unused
`UNIPROT_API_SEARCH` constant.  This theorem exhibits the code's actual
behaviour at the claim's failing point. -/
theorem c1_requests_identical (protein_name : String) :
    first_search_params protein_name = fallback_search_params protein_name ∧
    (first_search_params protein_name).query = protein_name ∧
    ("organism_name:\"Homo sapiens\"" : String).data <:+: UNIPROT_API_SEARCH.data :=
  ⟨rfl, rfl, by decide⟩

/-- C2: The fallback request is issued exactly once iff the first phase
succeeds with zero results; a fallback response body is returned to callers
unchanged; and a successful-but-empty result set produces the no-matches
message, distinct from the absence message. -/
theorem c2_fallback_policy (resp1 resp2 : NetResult) (name : String) :
    (fallback_request_count resp1 = 1 ↔ FirstYieldsZero resp1) ∧
    fallback_request_count resp1 ≤ 1 ∧
    (∀ d2, FirstYieldsZero resp1 → resp2 = NetResult.success d2 →
      make_uniprot_request_by_name resp1 resp2 = some d2) ∧
    (FirstYieldsZero resp1 →
      resp2 = NetResult.success (Json.obj [("results", Json.arr [])]) →
      search_proteins name (make_uniprot_request_by_name resp1 resp2) =
        some (noFoundMsg name)) ∧
    search_proteins name none = some (unableSearchMsg name) ∧
    noFoundMsg name ≠ unableSearchMsg name := by
  refine ⟨?_, ?_, ?_, ?_, rfl, ?_⟩
  · constructor
    · intro h
      cases resp1 with
      | failure => simp [fallback_request_count] at h
      | success data =>
        cases hfp : first_phase_has_results data with
        | none => simp [fallback_request_count, hfp] at h
        | some b =>
          cases b with
          | true => simp [fallback_request_count, hfp] at h
          | false => exact ⟨data, rfl, hfp⟩
    · rintro ⟨data, rfl, hfp⟩
      simp [fallback_request_count, hfp]
  · cases resp1 with
    | failure => simp [fallback_request_count]
    | success data =>
      cases hfp : first_phase_has_results data with
      | none => simp [fallback_request_count, hfp]
      | some b => cases b <;> simp [fallback_request_count, hfp]
  · rintro d2 ⟨data, rfl, hfp⟩ rfl
    simp [make_uniprot_request_by_name, hfp]
  · rintro ⟨data, rfl, hfp⟩ rfl
    simp [make_uniprot_request_by_name, hfp]
    rfl
  · intro h
    have h2 := congrArg String.data h
    simp [noFoundMsg, unableSearchMsg] at h2

/-- C2 witness: a first phase with empty results triggers the fallback,
whose empty body is returned and rendered as the no-matches message. -/
theorem c2_fallback_policy_witness :
    make_uniprot_request_by_name
        (NetResult.success (Json.obj [("results", Json.arr [])]))
        (NetResult.success (Json.obj [("results", Json.arr [])])) =
      some (Json.obj [("results", Json.arr [])]) ∧
    search_proteins "insulin"
        (make_uniprot_request_by_name
          (NetResult.success (Json.obj [("results", Json.arr [])]))
          (NetResult.success (Json.obj [("results", Json.arr [])]))) =
      some (noFoundMsg "insulin") :=
  ⟨(c2_fallback_policy _ _ "insulin").2.2.1 _ ⟨_, rfl, rfl⟩ rfl,
   (c2_fallback_policy _ _ "insulin").2.2.2.1 ⟨_, rfl, rfl⟩ rfl⟩

/-- C3 counterexample: a successfully parsed response whose `comments`
field is a number (a malformed shape) is non-absent, yet the structure
lookup raises a `TypeError` while iterating it — the error escapes the
registry-client boundary instead of being absorbed there, and the
operation produces no string. -/
theorem c3_counterexample :
    (Json.obj [("comments", Json.num 5)]).truthy = true ∧
    get_protein_structure "P01308" (some (Json.obj [("comments", Json.num 5)]))
      (Json.arr []) = none :=
  ⟨rfl, rfl⟩

/-- C3 amended: transport, HTTP-status and JSON-parse failures are absorbed
at the registry-client boundary, and each of the three operations returns a
formatted string on an absent body and on any schema-shaped body; but a
parsed body with a wrong-typed field can make an operation raise. -/
theorem c3_amended :
    (∀ id af, get_protein_structure id none af = some (unableFetchMsg id)) ∧
    (∀ id d af, WfRecord d = true → WfPreds af = true →
      (get_protein_structure id (some d) af).isSome = true) ∧
    (∀ n, search_proteins n none = some (unableSearchMsg n)) ∧
    (∀ n d, WfSearchData d = true → (search_proteins n (some d)).isSome = true) ∧
    (∀ n, get_uniprot_id n none = some (unableIdMsg n)) ∧
    (∀ n d, WfSearchData d = true → (get_uniprot_id n (some d)).isSome = true) := by
  refine ⟨fun id af => rfl, ?_, fun n => rfl, search_proteins_wf, fun n => rfl,
    get_uniprot_id_wf⟩
  intro id d af hd haf
  cases ht : d.truthy with
  | true => rw [get_structure_wf_eq id d af hd ht haf]; rfl
  | false =>
    cases d with
    | obj fs => simp [get_protein_structure, ht]
    | null | bool _ | num _ | str _ | arr _ => simp [WfRecord] at hd

/-- C3 amended witness at a schema-shaped insulin record. -/
theorem c3_amended_witness :
    WfRecord insulinRecord = true ∧
    (get_protein_structure "P01308" (some insulinRecord) (Json.arr [])).isSome = true ∧
    WfSearchData (Json.obj [("results", Json.arr [insulinRecord])]) = true ∧
    (search_proteins "insulin"
      (some (Json.obj [("results", Json.arr [insulinRecord])]))).isSome = true :=
  ⟨by decide, c3_amended.2.1 "P01308" insulinRecord (Json.arr []) (by decide) (by decide),
   by decide,
   c3_amended.2.2.2.1 "insulin" (Json.obj [("results", Json.arr [insulinRecord])])
     (by decide)⟩

/-- C4 counterexample: the formatter's output starts with a section label,
so removing line breaks from the whole output does not give back the input
sequence. -/
theorem c4_counterexample : removeNewlines (format_sequence "A") ≠ "A" := by
  rw [format_sequence_short_single "A" (by decide) (by decide)]
  decide

/-- C4 amended: for a line-break-free sequence of length at most 500 the
output is the fixed section label followed by the reflowed body, the body
with line breaks removed is exactly the input, and the body's lines are
60 characters except possibly the last; for longer sequences the output
never contains the raw sequence, only its decimal length. -/
theorem c4_amended (s : String) (hnl : '\n' ∉ s.data) :
    (s.length ≤ 500 →
      format_sequence s = seqSectionLabel ++ pyJoin "\n" (seq_chunks s) ∧
      removeNewlines (pyJoin "\n" (seq_chunks s)) = s ∧
      (∀ c ∈ seq_chunks s, c.length ≤ 60) ∧
      (∀ c ∈ (seq_chunks s).dropLast, c.length = 60)) ∧
    (500 < s.length →
      ¬ (s.data <:+: (format_sequence s).data) ∧
      s.length.repr.data <:+: (format_sequence s).data) := by
  constructor
  · intro h
    refine ⟨format_sequence_short s h, removeNewlines_body s hnl, ?_, ?_⟩
    · intro c hc
      simp only [seq_chunks, List.mem_map] at hc
      obtain ⟨x, hx, rfl⟩ := hc
      exact chunksL_mem_length SEQUENCE_LINE_LENGTH (by decide) s.toList x hx
    · intro c hc
      simp only [seq_chunks, dropLast_map, List.mem_map] at hc
      obtain ⟨x, hx, rfl⟩ := hc
      exact chunksL_dropLast_length SEQUENCE_LINE_LENGTH (by decide) s.toList x hx
  · intro h
    exact ⟨format_sequence_long_excludes_raw s h, format_sequence_long_has_length s h⟩

/-- C4 amended witness at a short newline-free sequence. -/
theorem c4_amended_witness :
    ('\n' ∉ ("MALWMRLLPLLALLALWGPDPAAA" : String).data) ∧
    ((("MALWMRLLPLLALLALWGPDPAAA" : String).length ≤ 500 →
      format_sequence "MALWMRLLPLLALLALWGPDPAAA" =
        seqSectionLabel ++ pyJoin "\n" (seq_chunks "MALWMRLLPLLALLALWGPDPAAA") ∧
      removeNewlines (pyJoin "\n" (seq_chunks "MALWMRLLPLLALLALWGPDPAAA")) =
        "MALWMRLLPLLALLALWGPDPAAA" ∧
      (∀ c ∈ seq_chunks "MALWMRLLPLLALLALWGPDPAAA", c.length ≤ 60) ∧
      (∀ c ∈ (seq_chunks "MALWMRLLPLLALLALWGPDPAAA").dropLast, c.length = 60)) ∧
    (500 < ("MALWMRLLPLLALLALWGPDPAAA" : String).length →
      ¬ (("MALWMRLLPLLALLALWGPDPAAA" : String).data <:+:
          (format_sequence "MALWMRLLPLLALLALWGPDPAAA").data) ∧
      ("MALWMRLLPLLALLALWGPDPAAA" : String).length.repr.data <:+:
        (format_sequence "MALWMRLLPLLALLALWGPDPAAA").data)) :=
  ⟨by decide, c4_amended "MALWMRLLPLLALLALWGPDPAAA" (by decide)⟩

/-- C5 counterexample: a non-absent record whose recommended name value is
the empty string makes `extract_protein_description` return the empty
string — the promised non-empty result fails. -/
theorem c5_counterexample :
    emptyNameRecord.truthy = true ∧
    extract_protein_description emptyNameRecord = some (Json.str "") :=
  ⟨rfl, rfl⟩

/-- C5 amended: on a schema-shaped record the description is the first text
value of the first FUNCTION comment carrying a non-empty text list when
that value is truthy, else the extracted name; the result is non-empty
whenever the extracted name is non-empty (record non-absence alone does not
guarantee it). -/
theorem c5_amended (d : Json) (h : WfRecord d = true) :
    extract_protein_description d = some (descSpec d) ∧
    ((extractName_spec d).truthy = true → (descSpec d).truthy = true) := by
  refine ⟨extract_desc_wf d h, ?_⟩
  intro hn
  cases hf : firstFunctionText (commentsListOf d) with
  | none => simp [descSpec, hf, hn]
  | some v =>
    cases hv : v.truthy with
    | true => simp [descSpec, hf, hv]
    | false => simp [descSpec, hf, hv, hn]

/-- C5 amended witness: the spec's own example — no FUNCTION comment and
recommended name Insulin gives the description Insulin. -/
theorem c5_amended_witness :
    WfRecord insulinNoFunctionRecord = true ∧
    extract_protein_description insulinNoFunctionRecord = some (Json.str "Insulin") := by
  refine ⟨by decide, ?_⟩
  rw [(c5_amended insulinNoFunctionRecord (by decide)).1]
  rfl

/-- C6 counterexample: a record whose recommended full-name value is
present but literally the sentinel string is routed to the submitted-names
branch, so the present recommended value is not returned. -/
theorem c6_counterexample :
    recommendedValue sentinelCollisionRecord = some (Json.str "N/A") ∧
    extract_protein_name sentinelCollisionRecord = some (Json.str "Insulin submitted") ∧
    ("Insulin submitted" : String) ≠ "N/A" :=
  ⟨rfl, rfl, by decide⟩

/-- C6 amended: on a schema-shaped record `extract_protein_name` never
raises and returns the recommended full-name value when present and
distinct from the sentinel, else the first submitted full-name value, else
the sentinel. -/
theorem c6_amended (d : Json) (h : WfRecord d = true) :
    extract_protein_name d = some (extractName_spec d) ∧
    (∀ v, recommendedValue d = some v → v.eqStr "N/A" = false → extractName_spec d = v) ∧
    (recommendedValue d = none → firstSubmittedHolder d = none →
      extractName_spec d = Json.str "N/A") := by
  refine ⟨extract_name_wf d h, ?_, ?_⟩
  · intro v hv hne
    simp [extractName_spec, hv, hne]
  · intro h1 h2
    simp [extractName_spec, h1, h2, Json.eqStr, submittedSpec]

/-- C6 amended witness at the insulin record. -/
theorem c6_amended_witness :
    WfRecord insulinRecord = true ∧
    extract_protein_name insulinRecord = some (Json.str "Insulin") := by
  refine ⟨by decide, ?_⟩
  rw [(c6_amended insulinRecord (by decide)).1]
  rfl

/-- C7: an identifier with no record yields the failure message naming the
identifier and (for markup-free identifiers) none of the success-path field
labels; a found record with an empty prediction list still yields the full
metadata report with the download slot N/A; and with several predictions
only the first matters. -/
theorem c7_structure_lookup (id : String) :
    (∀ af, get_protein_structure id none af = some (unableFetchMsg id)) ∧
    (id.data <:+: (unableFetchMsg id).data) ∧
    ((∀ c ∈ id.data, c ≠ '*') →
      ∀ lbl ∈ successLabels, ¬ (lbl.data <:+: (unableFetchMsg id).data)) ∧
    (∀ d, WfRecord d = true → d.truthy = true →
      get_protein_structure id (some d) (Json.arr []) =
        some (assemble_report id (accOf d).pyStr (extractName_spec d).pyStr
          (orgOf d).pyStr (descSpec d).pyStr "N/A" (format_sequence (seqStrOf d)))) ∧
    (∀ d m rest, get_protein_structure id (some d) (Json.arr (m :: rest)) =
      get_protein_structure id (some d) (Json.arr [m])) := by
  refine ⟨fun af => rfl, ?_, ?_, ?_, ?_⟩
  · exact ⟨("Unable to fetch UniProt information for accession " : String).data,
      ("." : String).data, by simp [unableFetchMsg]⟩
  · intro hstar lbl hlbl hinf
    have hlblstar : ('*' : Char) ∈ lbl.data := by
      simp only [successLabels, List.mem_cons, List.not_mem_nil, or_false] at hlbl
      rcases hlbl with rfl | rfl | rfl | rfl | rfl | rfl <;> decide
    have hmem : ('*' : Char) ∈ (unableFetchMsg id).data := hinf.sublist.subset hlblstar
    have hd : (unableFetchMsg id).data =
        ("Unable to fetch UniProt information for accession " : String).data ++
          (id.data ++ ("." : String).data) := by
      simp [unableFetchMsg]
    rw [hd] at hmem
    rcases List.mem_append.mp hmem with h1 | h2
    · exact absurd h1 (by decide)
    · rcases List.mem_append.mp h2 with h3 | h4
      · exact absurd rfl (hstar '*' h3)
      · exact absurd h4 (by decide)
  · intro d hd ht
    rw [get_structure_wf_eq id d (Json.arr []) hd ht (by decide)]
    rfl
  · intro d m rest
    have haf : alphafold_pdb_url (Json.arr (m :: rest)) = alphafold_pdb_url (Json.arr [m]) := by
      unfold alphafold_pdb_url
      simp [Json.truthy, pyIndexZero]
    unfold get_protein_structure
    rw [haf]

/-- C7 witness: the insulin record with an empty prediction list. -/
theorem c7_structure_lookup_witness :
    WfRecord insulinRecord = true ∧ insulinRecord.truthy = true ∧
    get_protein_structure "P01308" (some insulinRecord) (Json.arr []) =
      some (assemble_report "P01308" (accOf insulinRecord).pyStr
        (extractName_spec insulinRecord).pyStr (orgOf insulinRecord).pyStr
        (descSpec insulinRecord).pyStr "N/A"
        (format_sequence (seqStrOf insulinRecord))) :=
  ⟨by decide, by decide,
   (c7_structure_lookup "P01308").2.2.2.1 insulinRecord (by decide) (by decide)⟩

/-- C8: however many results the registry returns, at most
`MAX_SEARCH_RESULTS` candidates are rendered — exactly the smaller of 5 and
the result count. -/
theorem c8_at_most_five (results : List Json) (l : List String)
    (h : render_candidates results = some l) :
    l.length ≤ MAX_SEARCH_RESULTS ∧
    l.length = min MAX_SEARCH_RESULTS results.length := by
  refine ⟨render_candidates_length_le results l h, ?_⟩
  have h1 := render_list_length (results.take MAX_SEARCH_RESULTS) 1 l h
  rw [h1]
  exact List.length_take _ _

/-- C8 witness: seven upstream records render as exactly five entries. -/
theorem c8_at_most_five_witness :
    render_candidates (List.replicate 7 (Json.obj [])) =
      some ["1. **N/A** - N/A\n   Gene: N/A | Organism: N/A",
            "2. **N/A** - N/A\n   Gene: N/A | Organism: N/A",
            "3. **N/A** - N/A\n   Gene: N/A | Organism: N/A",
            "4. **N/A** - N/A\n   Gene: N/A | Organism: N/A",
            "5. **N/A** - N/A\n   Gene: N/A | Organism: N/A"] ∧
    (["1. **N/A** - N/A\n   Gene: N/A | Organism: N/A",
      "2. **N/A** - N/A\n   Gene: N/A | Organism: N/A",
      "3. **N/A** - N/A\n   Gene: N/A | Organism: N/A",
      "4. **N/A** - N/A\n   Gene: N/A | Organism: N/A",
      "5. **N/A** - N/A\n   Gene: N/A | Organism: N/A"] : List String).length ≤
        MAX_SEARCH_RESULTS :=
  ⟨by decide, (c8_at_most_five (List.replicate 7 (Json.obj [])) _ (by decide)).1⟩

/-- C9: a response that succeeds but parses to an empty object is
indistinguishable from a failed request: both operations return the very
failure messages of the transport-error path, because presence is decided
by truthiness of the parsed value. -/
theorem c9_empty_object_collapses (id n : String) (af : Json) :
    get_protein_structure id (some (Json.obj [])) af = get_protein_structure id none af ∧
    get_protein_structure id none af = some (unableFetchMsg id) ∧
    search_proteins n (some (Json.obj [])) = search_proteins n none ∧
    search_proteins n none = some (unableSearchMsg n) :=
  ⟨rfl, rfl, rfl, rfl⟩

/-- C10: a schema-shaped record with no sequence field makes the structure
lookup format the literal string N/A through the sequence formatter, so the
output carries an amino-acid-sequence section whose body is N/A. -/
theorem c10_missing_sequence_na (id : String) (fs : List (String × Json)) (af : Json)
    (h : WfRecord (Json.obj fs) = true) (ht : (Json.obj fs).truthy = true)
    (haf : WfPreds af = true) (hseq : fs.lookup "sequence" = none) :
    seqStrOf (Json.obj fs) = "N/A" ∧
    format_sequence "N/A" = seqSectionLabel ++ "N/A" ∧
    (∃ out, get_protein_structure id (some (Json.obj fs)) af = some out ∧
      (seqSectionLabel ++ "N/A").data <:+: out.data) := by
  have hs : seqStrOf (Json.obj fs) = "N/A" := by
    simp [seqStrOf, seqValOf, jGetD, hseq]
  have hfmt : format_sequence "N/A" = seqSectionLabel ++ "N/A" :=
    format_sequence_short_single "N/A" (by decide) (by decide)
  refine ⟨hs, hfmt, ?_⟩
  refine ⟨_, get_structure_wf_eq id (Json.obj fs) af h ht haf, ?_⟩
  rw [hs, hfmt]
  unfold assemble_report
  simp only [String.data_append]
  exact (List.suffix_append _ _).isInfix

/-- C10 witness at a record carrying only an accession. -/
theorem c10_missing_sequence_na_witness :
    WfRecord noSeqRecord = true ∧
    (∃ out, get_protein_structure "P01308" (some noSeqRecord) (Json.arr []) = some out ∧
      (seqSectionLabel ++ "N/A").data <:+: out.data) :=
  ⟨by decide,
   (c10_missing_sequence_na "P01308" [("primaryAccession", Json.str "P01308")]
     (Json.arr []) (by decide) (by decide) (by decide) rfl).2.2⟩
